import Mathlib

/-!
Verification development for `pbns.py`, a Pushbullet desktop-notification
daemon.  The Python source is shallowly embedded: dynamically typed payload
values become the inductive `JVal` (strings, booleans, `None`, and
string-keyed dictionaries — the value shapes the daemon manipulates),
fallible operations return `Except PyErr`, and the side effects of the
classifier (history fetch, decryption, the D-Bus notification call) are
collected as explicit effect traces.  External collaborators (the
`pushbullet` account object, `json.loads`, the socket layer, the stream's
run loop) are parameters supplied to the embedded functions.
-/

/-- Python exception classes that can surface in the embedded fragment. -/
inductive PyErr where
  | keyError (k : String)
  | typeError
  | attributeError
  | indexError
  | jsonDecodeError
  | gaierror
  | socketTimeout
  | connectionRefused
  | other (msg : String)
  deriving DecidableEq

/-- Dynamically typed payload values: strings, booleans, `None`, and
string-keyed dictionaries (the shapes handled by `pbns.py`). -/
inductive JVal where
  | vStr (s : String)
  | vBool (b : Bool)
  | vNull
  | vObj (fields : List (String × JVal))

mutual

/-- Python `repr` of a value, used by `str` on dictionaries. -/
def pyRepr : JVal → String
  | .vStr s => "\x27" ++ s ++ "\x27"
  | .vBool b => if b then "True" else "False"
  | .vNull => "None"
  | .vObj d => "\x7b" ++ pyReprFields d ++ "\x7d"

/-- `repr` of the comma-separated field list of a dictionary. -/
def pyReprFields : List (String × JVal) → String
  | [] => ""
  | [(k, v)] => "\x27" ++ k ++ "\x27: " ++ pyRepr v
  | (k, v) :: rest => "\x27" ++ k ++ "\x27: " ++ pyRepr v ++ ", " ++ pyReprFields rest

end

/-- Python `str` of a value (as consumed by `str.format`). -/
def pyStr : JVal → String
  | .vStr s => s
  | v => pyRepr v

/-- Python truthiness: empty strings, `False`, `None` and empty dicts are
falsy. -/
def JVal.truthy : JVal → Bool
  | .vStr s => s != ""
  | .vBool b => b
  | .vNull => false
  | .vObj d => !d.isEmpty

/-- Python `v == s` for a string literal `s`: equal only when `v` is the
same string (comparisons across types are `False`). -/
def JVal.eqStr : JVal → String → Bool
  | .vStr t, s => t == s
  | _, _ => false

/-- Python `v[k]`: dictionary item access, raising `KeyError` for a missing
key and `TypeError` when `v` is not a dictionary. -/
def JVal.getItem : JVal → String → Except PyErr JVal
  | .vObj d, k =>
    match d.lookup k with
    | some x => .ok x
    | none => .error (.keyError k)
  | _, _ => .error .typeError

/-- Python `k in v.keys()`: raises `AttributeError` when `v` has no
`keys` method (is not a dictionary). -/
def keysContains (v : JVal) (k : String) : Except PyErr Bool :=
  match v with
  | .vObj d => .ok (d.lookup k).isSome
  | _ => .error .attributeError

/-- Drop leading whitespace characters from a character list. -/
def dropLeadingWs : List Char → List Char
  | [] => []
  | c :: cs => if c.isWhitespace then dropLeadingWs cs else c :: cs

/-- Python `str.strip()`: remove leading and trailing whitespace. -/
def pyStrip (s : String) : String :=
  ⟨(dropLeadingWs (dropLeadingWs s.data).reverse).reverse⟩

/-- The fixed icon asset path (`resources/pb_logo.png` under the install
directory; the directory prefix is environment-dependent and irrelevant to
every property below). -/
def ICON : String := "resources/pb_logo.png"

/-- Observable side effects of processing one event. -/
inductive Eff where
  | getPushes
  | decryptData (ciphertext : JVal)
  | dbusNotify (appName : String) (replaceId : Nat) (icon : String)
      (title body : String) (actions hints : String) (expireMs : Nat)

/-- `notify(title, body)`: strips both arguments (`str.strip`, raising
`AttributeError` on non-strings) and issues the D-Bus `Notify` call with
the fixed application name, icon and expire timeout. -/
def notify (title body : JVal) : Except PyErr Eff :=
  match title, body with
  | .vStr t, .vStr b =>
    .ok (.dbusNotify "Pushbullet" 0 ICON (pyStrip t) (pyStrip b) "" "" 5000)
  | _, _ => .error .attributeError

/-- `handle_mirror(push)`: title `"[" + application_name + "] " + title`
(via `str.format`), body `push["body"]`, field lookups in source order. -/
def handle_mirror (push : JVal) : Except PyErr (JVal × JVal) :=
  match push.getItem "application_name" with
  | .error e => .error e
  | .ok app =>
    match push.getItem "title" with
    | .error e => .error e
    | .ok t =>
      match push.getItem "body" with
      | .error e => .error e
      | .ok b => .ok (.vStr ("[" ++ pyStr app ++ "] " ++ pyStr t), b)

/-- `handle_push(push)`: title is `push["title"]` when the key exists,
otherwise `push["sender_name"]` when that key exists, otherwise the empty
string; body is `push["body"]`. -/
def handle_push (push : JVal) : Except PyErr (JVal × JVal) :=
  match keysContains push "title" with
  | .error e => .error e
  | .ok hasTitle =>
    let titleR : Except PyErr JVal :=
      if hasTitle then push.getItem "title"
      else
        match keysContains push "sender_name" with
        | .error e => .error e
        | .ok hasSender =>
          if hasSender then push.getItem "sender_name" else .ok (.vStr "")
    match titleR with
    | .error e => .error e
    | .ok title =>
      match push.getItem "body" with
      | .error e => .error e
      | .ok body => .ok (title, body)

/-- `check_if_dismissed(push)`: Python returns
`"dismissed" in push.keys() and push["dismissed"]`, i.e. `False` when the
key is absent and the raw value of the key otherwise. -/
def check_if_dismissed (push : JVal) : Except PyErr JVal :=
  match keysContains push "dismissed" with
  | .error e => .error e
  | .ok has => if has then push.getItem "dismissed" else .ok (.vBool false)

/-- The account collaborator: `get_pushes()` results (newest first) and the
`_decrypt_data` primitive. -/
structure Account where
  pushes : List JVal
  decrypt_data : JVal → Except PyErr String

/-- State of `on_push` just before line 170 (`if title and body and not
check_if_dismissed(push)`): effects so far, the current value of the
`push` variable, the `title`/`body` variables (`none` models Python
`None`), and a pending exception when one was raised earlier. -/
structure Classified where
  trace : List Eff
  final : JVal
  title : Option JVal
  body : Option JVal
  err : Option PyErr

/-- Prepend effects to a classification result. -/
def withTrace (tr : List Eff) (c : Classified) : Classified :=
  ⟨tr ++ c.trace, c.final, c.title, c.body, c.err⟩

/-- Lines 167–168 of `on_push`: the (possibly decrypted) inner payload is
checked for `type == "mirror"` and handed to `handle_mirror`; no effect is
produced at this stage. -/
def classifyInner (inner : JVal) : Classified :=
  match inner.getItem "type" with
  | .error e => ⟨[], inner, none, none, some e⟩
  | .ok ity =>
    if ity.eqStr "mirror" then
      match handle_mirror inner with
      | .error e => ⟨[], inner, none, none, some e⟩
      | .ok tb => ⟨[], inner, some tb.1, some tb.2, none⟩
    else ⟨[], inner, none, none, none⟩

/-- Lines 147–168 of `on_push`: dispatch on the outer event `type`
(`tickle` fetches the latest push from history, `push` unwraps and
possibly decrypts the inner payload, all other types are ignored).
`loads` is `json.loads` applied to the decrypted text. -/
def classify (loads : String → Except PyErr JVal) (account : Account)
    (push : JVal) : Classified :=
  match push.getItem "type" with
  | .error e => ⟨[], push, none, none, some e⟩
  | .ok ty =>
    if ty.eqStr "tickle" then
      match account.pushes with
      | [] => ⟨[.getPushes], push, none, none, some .indexError⟩
      | latest :: _ =>
        match handle_push latest with
        | .error e => ⟨[.getPushes], latest, none, none, some e⟩
        | .ok tb => ⟨[.getPushes], latest, some tb.1, some tb.2, none⟩
    else if ty.eqStr "push" then
      match push.getItem "push" with
      | .error e => ⟨[], push, none, none, some e⟩
      | .ok inner =>
        match inner.getItem "encrypted" with
        | .error e => ⟨[], inner, none, none, some e⟩
        | .ok enc =>
          if enc.truthy then
            match inner.getItem "ciphertext" with
            | .error e => ⟨[], inner, none, none, some e⟩
            | .ok ct =>
              match account.decrypt_data ct with
              | .error e => ⟨[.decryptData ct], inner, none, none, some e⟩
              | .ok s =>
                match loads s with
                | .error e => ⟨[.decryptData ct], inner, none, none, some e⟩
                | .ok dec => withTrace [.decryptData ct] (classifyInner dec)
          else classifyInner inner
    else ⟨[], push, none, none, none⟩

/-- Outcome of one `on_push` invocation: effects in order, plus the
exception that escaped the handler, if any. -/
structure RunResult where
  trace : List Eff
  err : Option PyErr

/-- Lines 170–171 of `on_push`: `if title and body and not
check_if_dismissed(push): notify(title, body)`, with Python short-circuit
evaluation order. -/
def gate (c : Classified) : RunResult :=
  match c.err with
  | some e => ⟨c.trace, some e⟩
  | none =>
    match c.title, c.body with
    | some t, some b =>
      if t.truthy && b.truthy then
        match check_if_dismissed c.final with
        | .error e => ⟨c.trace, some e⟩
        | .ok d =>
          if d.truthy then ⟨c.trace, none⟩
          else
            match notify t b with
            | .error e => ⟨c.trace, some e⟩
            | .ok eff => ⟨c.trace ++ [eff], none⟩
      else ⟨c.trace, none⟩
    | _, _ => ⟨c.trace, none⟩

/-- `on_push(account, push)`: classification followed by the
notify-or-suppress gate. -/
def on_push (loads : String → Except PyErr JVal) (account : Account)
    (push : JVal) : RunResult :=
  gate (classify loads account push)

/-- `on_error(_, exception)`: re-raises the exception it is handed. -/
def on_error (exception : PyErr) : Except PyErr Unit := .error exception

/-- Recognizer for the history-fetch effect. -/
def isGetPushes : Eff → Bool
  | .getPushes => true
  | _ => false

/-- Recognizer for the D-Bus notification effect. -/
def isDbusNotify : Eff → Bool
  | .dbusNotify .. => true
  | _ => false

/-- Number of `get_pushes` calls recorded in a trace. -/
def countGetPushes (tr : List Eff) : Nat := (tr.filter isGetPushes).length

/-! ### Connectivity prober (`wait_for_internet`) -/

/-- Observable actions of the connectivity prober. -/
inductive NetAct where
  | attempt (host port : String) (timeoutSecs : Nat)
  | sleep (secs : Nat)
  deriving DecidableEq

/-- The fixed connection attempt issued by `wait_for_internet`:
`socket.create_connection(("api.pushbullet.com", "80"), timeout=30)`. -/
def pbAttempt : NetAct := .attempt "api.pushbullet.com" "80" 30

/-- The exception classes caught by the prober's `except` clause:
`socket.gaierror`, `socket.timeout`, `ConnectionRefusedError`. -/
def isCaughtNetErr : PyErr → Bool
  | .gaierror => true
  | .socketTimeout => true
  | .connectionRefused => true
  | _ => false

/-- `wait_for_internet()`, fuel-bounded.  `conn i` is the outcome of the
`i`-th `socket.create_connection` call.  Returns `none` when the fuel runs
out before the loop exits, otherwise the action trace and the exception
that propagated (if the outcome was not a caught class). -/
def wait_for_internet (conn : Nat → Except PyErr Unit) :
    Nat → Nat → Option (List NetAct × Option PyErr)
  | _, 0 => none
  | i, fuel + 1 =>
    match conn i with
    | .ok _ => some ([pbAttempt], none)
    | .error e =>
      if isCaughtNetErr e then
        match wait_for_internet conn (i + 1) fuel with
        | none => none
        | some (tr, r) => some (pbAttempt :: NetAct.sleep 10 :: tr, r)
      else some ([pbAttempt], some e)

/-- Recognizer for connection attempts. -/
def isAttempt : NetAct → Bool
  | .attempt .. => true
  | _ => false

/-- Recognizer for backoff sleeps. -/
def isSleep : NetAct → Bool
  | .sleep _ => true
  | _ => false

/-- Number of connection attempts in a prober trace. -/
def countAttempts (tr : List NetAct) : Nat := (tr.filter isAttempt).length

/-- Number of backoff sleeps in a prober trace. -/
def countSleeps (tr : List NetAct) : Nat := (tr.filter isSleep).length

/-! ### Supervisor (`main`, lines 220–228) and startup -/

/-- Outcome of one `listener.run_forever()` call: normal return, an
exception raised out of the call, or a `KeyboardInterrupt`. -/
inductive RunOutcome where
  | returns
  | raises (e : PyErr)
  | keyboardInterrupt

/-- Observable top-level events of `main`. -/
inductive MainEv where
  | logError (msg : String)
  | logWarning (msg : String)
  | probe
  | connectListener
  | runStream
  | closeListener
  deriving DecidableEq

/-- How the embedded `main` ended: `sys.exit` with a code, an uncaught
exception, or still looping when the fuel ran out. -/
inductive MainExit where
  | exited (code : Nat)
  | crashed (e : PyErr)
  | running
  deriving DecidableEq

/-- The `try: while True: listener.run_forever(); wait_for_internet()`
loop of `main` with its single `except KeyboardInterrupt` clause.
`runs i` is the outcome of the `i`-th `run_forever` call; the probe's
internals are abstracted to one `probe` event.  A `KeyboardInterrupt`
closes the listener and calls `sys.exit()` (exit code 0); any other
exception is not caught and crashes the process. -/
def supervise (runs : Nat → RunOutcome) : Nat → Nat → List MainEv × MainExit
  | _, 0 => ([], .running)
  | i, fuel + 1 =>
    match runs i with
    | .returns =>
      let rest := supervise runs (i + 1) fuel
      (.runStream :: .probe :: rest.1, rest.2)
    | .raises e => ([.runStream], .crashed e)
    | .keyboardInterrupt => ([.runStream, .closeListener], .exited 0)

/-- `CONFIG_BASEDIR`-derived path of the API key file. -/
def API_KEY_PATH (home : String) : String := home ++ "/.config/pbns/apikey"

/-- `CONFIG_BASEDIR`-derived path of the password file. -/
def PASSWORD_PATH (home : String) : String := home ++ "/.config/pbns/password"

/-- The account-signup URL named in the missing-key error message. -/
def signupURL : String := "https://www.pushbullet.com/#settings/account"

/-- The error message logged by `get_api_key` when the key file is absent
(the `err_msg.format(API_KEY_PATH)` string of lines 79–83). -/
def apiKeyErrMsg (home : String) : String :=
  "Couldn\x27t load your access token. Create one at \x27" ++ signupURL ++
    "\x27 and paste it into \x27" ++ API_KEY_PATH home ++ "\x27."

/-- The warning logged by `get_encryption_password` when the password file
is absent, with the `%s` placeholder substituted. -/
def passwordWarnMsg (home : String) : String :=
  "Can\x27t use encryption due to inexistent password. If you wish to " ++
    "use encryption, place your encryption password into " ++
    PASSWORD_PATH home

/-- `get_api_key(api_key_path)`: the stripped file content, or — when the
file is absent — the logged error message together with the `sys.exit(1)`
status code. -/
def get_api_key (fileContent : Option String) (home : String) :
    Except (Nat × String) String :=
  match fileContent with
  | some c => .ok (pyStrip c)
  | none => .error (1, apiKeyErrMsg home)

/-- `get_encryption_password(passwd_path)`: the stripped file content, or
`None` (after a warning) when the file is absent. -/
def get_encryption_password (fileContent : Option String) : Option String :=
  fileContent.map pyStrip

/-- `main()` (named `pbnsMain` here because Lean reserves `main`): load
the API key (exiting with status 1 when absent, before any connectivity
probe or stream construction), load the optional password (warning when
absent), probe connectivity, build the listener, then enter the
supervisor loop. -/
def pbnsMain (home : String) (apiKeyFile passwordFile : Option String)
    (runs : Nat → RunOutcome) (fuel : Nat) : List MainEv × MainExit :=
  match get_api_key apiKeyFile home with
  | .error ec => ([.logError ec.2], .exited ec.1)
  | .ok _ =>
    let warn : List MainEv :=
      match get_encryption_password passwordFile with
      | none => [.logWarning (passwordWarnMsg home)]
      | some _ => []
    let s := supervise runs 0 fuel
    (warn ++ .probe :: .connectListener :: s.1, s.2)

/-! ### Concrete inputs used by witnesses and counterexamples -/

/-- A history item carrying both `sender_name` and `title` (and a body). -/
def c2fields : List (String × JVal) :=
  [("sender_name", .vStr "Alice"), ("title", .vStr "Bob"), ("body", .vStr "x")]

/-- A `json.loads` stand-in that always fails (never reached below). -/
def c3loads : String → Except PyErr JVal := fun _ => .error .jsonDecodeError

/-- An account whose newest push has a title and a body. -/
def c3acct : Account :=
  ⟨[.vObj [("title", .vStr "T"), ("body", .vStr "B")]], fun _ => .error .attributeError⟩

/-- A bare tickle event. -/
def c3ev : JVal := .vObj [("type", .vStr "tickle")]

/-- A decrypted mirror payload (also used as a plaintext inner payload,
hence the falsy `encrypted` flag). -/
def c4dec : JVal :=
  .vObj [("type", .vStr "mirror"), ("application_name", .vStr "App"),
         ("title", .vStr "Ti"), ("body", .vStr "Bo"), ("encrypted", .vBool false)]

/-- An encrypted inner payload with ciphertext `"CT"`. -/
def c4inner : JVal := .vObj [("encrypted", .vBool true), ("ciphertext", .vStr "CT")]

/-- A push event wrapping the encrypted payload. -/
def c4ev : JVal := .vObj [("type", .vStr "push"), ("push", c4inner)]

/-- A push event wrapping the same mirror payload in plaintext. -/
def c4ev2 : JVal := .vObj [("type", .vStr "push"), ("push", c4dec)]

/-- A `json.loads` stand-in mapping the decrypted text to the mirror
payload. -/
def c4loads : String → Except PyErr JVal :=
  fun s => if s = "PLAIN" then .ok c4dec else .error .jsonDecodeError

/-- An account whose decryption primitive maps ciphertext `"CT"` to the
plaintext `"PLAIN"`. -/
def c4acct : Account :=
  ⟨[], fun ct => match ct with
                 | .vStr "CT" => .ok "PLAIN"
                 | _ => .error .attributeError⟩

/-- A mirror payload with non-empty string fields. -/
def c5fields : List (String × JVal) :=
  [("application_name", .vStr "App"), ("title", .vStr "Ti"), ("body", .vStr "Bo")]

/-- A `json.loads` stand-in for the tickle witness. -/
def c6loads : String → Except PyErr JVal := fun _ => .error .jsonDecodeError

/-- An account with one history item for the tickle witness. -/
def c6acct : Account :=
  ⟨[.vObj [("title", .vStr "T6"), ("body", .vStr "B6")]], fun _ => .error .attributeError⟩

/-- A bare tickle event for the tickle witness. -/
def c6ev : JVal := .vObj [("type", .vStr "tickle")]

/-- An event of a type that is neither `tickle` nor `push`. -/
def c7ev : JVal := .vObj [("type", .vStr "dismissal")]

/-- Collaborators for the ignored-event witness. -/
def c7loads : String → Except PyErr JVal := fun _ => .error .jsonDecodeError

/-- Account for the ignored-event witness. -/
def c7acct : Account := ⟨[], fun _ => .error .attributeError⟩

/-- A connect primitive that times out twice and then succeeds. -/
def c8conn : Nat → Except PyErr Unit :=
  fun i => if i < 2 then .error .socketTimeout else .ok ()

/-- A connect primitive that raises an uncaught exception class. -/
def c8bad : Nat → Except PyErr Unit := fun _ => .error (.other "OSError")

/-- A run loop whose first call raises a transport exception. -/
def c1crashRuns : Nat → RunOutcome :=
  fun _ => .raises (.other "requests.exceptions.ConnectionError")

/-! ### Helper lemmas -/

/-- The inner classification step produces no effects. -/
theorem classifyInner_trace (x : JVal) : (classifyInner x).trace = [] := by
  unfold classifyInner
  split
  · rfl
  · split
    · split <;> rfl
    · rfl

/-- The classification phase records at most one effect: nothing, one
history fetch, or one decryption call. -/
theorem classify_trace_shape (loads : String → Except PyErr JVal)
    (a : Account) (p : JVal) :
    (classify loads a p).trace = [] ∨
    (classify loads a p).trace = [.getPushes] ∨
    ∃ ct, (classify loads a p).trace = [.decryptData ct] := by
  unfold classify
  split
  · left; rfl
  split
  · split
    · right; left; rfl
    · split <;> (right; left; rfl)
  split
  · split
    · left; rfl
    split
    · left; rfl
    split
    · split
      · left; rfl
      split
      · right; right; exact ⟨_, rfl⟩
      split
      · right; right; exact ⟨_, rfl⟩
      · right; right
        simp only [withTrace, classifyInner_trace, List.append_nil]
        exact ⟨_, rfl⟩
    · left; exact classifyInner_trace _
  · left; rfl

/-- Exhaustive description of the notify-or-suppress gate: either the
trace is unchanged, or the candidate had a non-empty string title and
body, the final payload was not dismissed, and exactly one D-Bus call
with the stripped title and body was appended. -/
theorem gate_cases (c : Classified) :
    gate c = ⟨c.trace, (gate c).err⟩ ∨
    ∃ t b dv, c.err = none ∧ c.title = some (.vStr t) ∧ c.body = some (.vStr b) ∧
      t ≠ "" ∧ b ≠ "" ∧ check_if_dismissed c.final = .ok dv ∧ dv.truthy = false ∧
      gate c = ⟨c.trace ++
        [.dbusNotify "Pushbullet" 0 ICON (pyStrip t) (pyStrip b) "" "" 5000], none⟩ := by
  obtain ⟨tr, fin, title, body, err⟩ := c
  cases err with
  | some e => left; rfl
  | none =>
    cases title with
    | none => left; rfl
    | some t =>
      cases body with
      | none => left; rfl
      | some b =>
        show gate ⟨tr, fin, some t, some b, none⟩ = _ ∨ _
        rw [gate]
        dsimp only
        split
        case isTrue htb =>
          split
          case h_1 e he => left; rfl
          case h_2 d hd =>
            split
            case isTrue hdt => left; rfl
            case isFalse hdt =>
              cases t with
              | vStr ts =>
                cases b with
                | vStr bs =>
                  right
                  refine ⟨ts, bs, d, rfl, rfl, rfl, ?_, ?_, hd, by simpa using hdt, rfl⟩
                  · intro hts
                    rw [hts] at htb
                    simp [JVal.truthy] at htb
                  · intro hbs
                    rw [hbs] at htb
                    simp [JVal.truthy] at htb
                | vBool bb => left; rfl
                | vNull => left; rfl
                | vObj bd => left; rfl
              | vBool tb2 => left; rfl
              | vNull => left; rfl
              | vObj td => left; rfl
        case isFalse htb => left; rfl

/-- Classification of a tickle event: one history fetch, then the newest
item (when any) goes through `handle_push`. -/
theorem classify_tickle (loads : String → Except PyErr JVal) (a : Account)
    (ev : JVal) (h : ev.getItem "type" = .ok (.vStr "tickle")) :
    classify loads a ev =
      match a.pushes with
      | [] => ⟨[.getPushes], ev, none, none, some .indexError⟩
      | latest :: _ =>
        match handle_push latest with
        | .error e => ⟨[.getPushes], latest, none, none, some e⟩
        | .ok tb => ⟨[.getPushes], latest, some tb.1, some tb.2, none⟩ := by
  rw [classify, h]
  simp [JVal.eqStr]

/-- Classification of an encrypted push event whose decryption and parse
succeed: the decryption effect followed by the inner classification of
the decrypted structure. -/
theorem classify_push_enc (loads : String → Except PyErr JVal) (a : Account)
    (ev inner enc ct : JVal) (s : String) (dec : JVal)
    (h1 : ev.getItem "type" = .ok (.vStr "push"))
    (h2 : ev.getItem "push" = .ok inner)
    (h3 : inner.getItem "encrypted" = .ok enc)
    (h4 : enc.truthy = true)
    (h5 : inner.getItem "ciphertext" = .ok ct)
    (h6 : a.decrypt_data ct = .ok s)
    (h7 : loads s = .ok dec) :
    classify loads a ev = withTrace [.decryptData ct] (classifyInner dec) := by
  rw [classify, h1]
  simp [JVal.eqStr, h2, h3, h4, h5, h6, h7]

/-- Classification of a plaintext push event (falsy `encrypted` flag):
exactly the inner classification of the inner payload. -/
theorem classify_push_plain (loads : String → Except PyErr JVal) (a : Account)
    (ev inner enc : JVal)
    (h1 : ev.getItem "type" = .ok (.vStr "push"))
    (h2 : ev.getItem "push" = .ok inner)
    (h3 : inner.getItem "encrypted" = .ok enc)
    (h4 : enc.truthy = false) :
    classify loads a ev = classifyInner inner := by
  rw [classify, h1]
  simp [JVal.eqStr, h2, h3, h4]

/-- Appending a D-Bus call does not change the history-fetch count. -/
theorem countGetPushes_append_notify (tr : List Eff) (ap : String) (r : Nat)
    (ic t b ac hi : String) (ex : Nat) :
    countGetPushes (tr ++ [.dbusNotify ap r ic t b ac hi ex]) =
      countGetPushes tr := by
  simp [countGetPushes, isGetPushes]

/-! ### Claim theorems -/

/-- C2 (amended): for every item fetched in response to a tickle, the
classifier derives the title as the item's own `title` field if present,
else its `sender_name` field if present, else the empty string; the body
is the item's `body` field. -/
theorem C2_tickle_item_fields (d : List (String × JVal)) (b : JVal)
    (hb : d.lookup "body" = some b) :
    handle_push (.vObj d) =
      .ok (match d.lookup "title" with
           | some t => t
           | none =>
             match d.lookup "sender_name" with
             | some s => s
             | none => .vStr "", b) := by
  cases ht : d.lookup "title" with
  | some t => simp [handle_push, keysContains, JVal.getItem, ht, hb]
  | none =>
    cases hs : d.lookup "sender_name" with
    | some s => simp [handle_push, keysContains, JVal.getItem, ht, hs, hb]
    | none => simp [handle_push, keysContains, JVal.getItem, ht, hs, hb]

/-- C2 counterexample: on an item where both `sender_name` and `title`
are present, the code derives the `title` field (`"Bob"`), not the
`sender_name` (`"Alice"`) the claim predicts. -/
theorem C2_counterexample :
    (JVal.vObj c2fields).getItem "sender_name" = .ok (.vStr "Alice") ∧
    handle_push (.vObj c2fields) = .ok (.vStr "Bob", .vStr "x") ∧
    ¬handle_push (.vObj c2fields) = .ok (.vStr "Alice", .vStr "x") :=
  ⟨rfl, rfl, by simp [show handle_push (.vObj c2fields) = .ok (.vStr "Bob", .vStr "x") from rfl]⟩

/-- C2 witness: the amended fallback evaluated on a concrete item. -/
theorem C2_witness :
    handle_push (.vObj c2fields) =
      .ok (match c2fields.lookup "title" with
           | some t => t
           | none =>
             match c2fields.lookup "sender_name" with
             | some s => s
             | none => .vStr "", .vStr "x") :=
  C2_tickle_item_fields c2fields (.vStr "x") rfl

/-- C5: for every mirror payload with non-empty string
`application_name`, `title` and `body`, the classifier output title is
`"[" ++ application_name ++ "] " ++ title` and the body is the payload's
`body` field verbatim (no stripping at this layer). -/
theorem C5_mirror_format (d : List (String × JVal)) (app t b : String)
    (ha : d.lookup "application_name" = some (.vStr app))
    (ht : d.lookup "title" = some (.vStr t))
    (hb : d.lookup "body" = some (.vStr b))
    (hna : app ≠ "") (hnt : t ≠ "") (hnb : b ≠ "") :
    handle_mirror (.vObj d) =
      .ok (.vStr ("[" ++ app ++ "] " ++ t), .vStr b) := by
  simp [handle_mirror, JVal.getItem, ha, ht, hb, pyStr]

/-- C5 witness: the mirror format on a concrete payload. -/
theorem C5_witness :
    handle_mirror (.vObj c5fields) =
      .ok (.vStr ("[" ++ "App" ++ "] " ++ "Ti"), .vStr "Bo") :=
  C5_mirror_format c5fields "App" "Ti" "Bo" rfl rfl rfl
    (by decide) (by decide) (by decide)

/-- C7: an event whose type is neither `tickle` nor `push` produces no
candidate and no collaborator call: the classification state is empty and
the run yields an empty trace with no exception. -/
theorem C7_other_types_ignored (loads : String → Except PyErr JVal)
    (a : Account) (ev ty : JVal)
    (h : ev.getItem "type" = .ok ty)
    (h1 : ty.eqStr "tickle" = false) (h2 : ty.eqStr "push" = false) :
    classify loads a ev = ⟨[], ev, none, none, none⟩ ∧
    on_push loads a ev = ⟨[], none⟩ := by
  have hc : classify loads a ev = ⟨[], ev, none, none, none⟩ := by
    rw [classify, h]
    simp [h1, h2]
  exact ⟨hc, by rw [on_push, hc]; rfl⟩

/-- C7 witness: a `dismissal`-typed event is ignored. -/
theorem C7_witness :
    classify c7loads c7acct c7ev = ⟨[], c7ev, none, none, none⟩ ∧
    on_push c7loads c7acct c7ev = ⟨[], none⟩ :=
  C7_other_types_ignored c7loads c7acct c7ev (.vStr "dismissal") rfl rfl rfl

/-- C9: with the API key file absent, `main` logs an error message that
contains the expected key path and the account-signup URL, exits with
status 1 (nonzero), and neither probes connectivity, builds the listener,
nor runs the stream. -/
theorem C9_missing_api_key (home : String) (pw : Option String)
    (runs : Nat → RunOutcome) (fuel : Nat) :
    pbnsMain home none pw runs fuel =
      ([.logError (apiKeyErrMsg home)], .exited 1) ∧
    (∃ a b, apiKeyErrMsg home = a ++ API_KEY_PATH home ++ b) ∧
    (∃ a b, apiKeyErrMsg home = a ++ signupURL ++ b) ∧
    MainEv.probe ∉ (pbnsMain home none pw runs fuel).1 ∧
    MainEv.connectListener ∉ (pbnsMain home none pw runs fuel).1 ∧
    MainEv.runStream ∉ (pbnsMain home none pw runs fuel).1 ∧
    (1 : Nat) ≠ 0 := by
  have h : pbnsMain home none pw runs fuel =
      ([.logError (apiKeyErrMsg home)], .exited 1) := rfl
  refine ⟨h, ?_, ?_, ?_, ?_, ?_, by decide⟩
  · exact ⟨"Couldn\x27t load your access token. Create one at \x27" ++ signupURL ++
      "\x27 and paste it into \x27", "\x27.", rfl⟩
  · refine ⟨"Couldn\x27t load your access token. Create one at \x27",
      "\x27 and paste it into \x27" ++ API_KEY_PATH home ++ "\x27.", ?_⟩
    simp only [apiKeyErrMsg, String.append_assoc]
  · rw [h]; simp
  · rw [h]; simp
  · rw [h]; simp

/-- After `n` caught failures and then a success, the prober returns
normally with `n + 1` attempts and `n` backoff sleeps (generalized over
the starting attempt index). -/
theorem wfi_retry_aux (conn : Nat → Except PyErr Unit) :
    ∀ n i, (∀ j, j < n → ∃ e, conn (i + j) = .error e ∧ isCaughtNetErr e = true) →
    conn (i + n) = .ok () →
    ∃ tr, wait_for_internet conn i (n + 1) = some (tr, none) ∧
      countAttempts tr = n + 1 ∧ countSleeps tr = n := by
  intro n
  induction n with
  | zero =>
    intro i _ hok
    rw [Nat.add_zero] at hok
    refine ⟨[pbAttempt], ?_, rfl, rfl⟩
    rw [wait_for_internet, hok]
  | succ n ih =>
    intro i hfail hok
    obtain ⟨e, he, hce⟩ := hfail 0 (Nat.succ_pos n)
    rw [Nat.add_zero] at he
    have hok' : conn (i + 1 + n) = .ok () := by
      have harith : i + 1 + n = i + (n + 1) := by omega
      rw [harith]
      exact hok
    have hfail' : ∀ j, j < n → ∃ e, conn (i + 1 + j) = .error e ∧ isCaughtNetErr e = true := by
      intro j hj
      have harith : i + 1 + j = i + (j + 1) := by omega
      rw [harith]
      exact hfail (j + 1) (by omega)
    obtain ⟨tr, htr, hca, hcs⟩ := ih (i + 1) hfail' hok'
    refine ⟨pbAttempt :: NetAct.sleep 10 :: tr, ?_, ?_, ?_⟩
    · rw [wait_for_internet, he]
      simp only [hce, if_true, htr]
    · simp only [countAttempts, List.filter_cons] at hca ⊢
      simp [pbAttempt, isAttempt, hca]
    · simp only [countSleeps, List.filter_cons] at hcs ⊢
      simp [pbAttempt, isAttempt, isSleep, hcs]

/-- C8: the connectivity prober (a) on the outcome sequence timeout,
timeout, success makes exactly three attempts with the fixed 10-unit
backoff sleep between them and returns normally; (b) retries every caught
failure class with no upper bound on the number of attempts; (c) lets any
other exception class propagate after a single attempt. -/
theorem C8_prober :
    wait_for_internet c8conn 0 3 =
      some ([pbAttempt, .sleep 10, pbAttempt, .sleep 10, pbAttempt], none) ∧
    (∀ (conn : Nat → Except PyErr Unit) (n : Nat),
      (∀ j, j < n → ∃ e, conn j = .error e ∧ isCaughtNetErr e = true) →
      conn n = .ok () →
      ∃ tr, wait_for_internet conn 0 (n + 1) = some (tr, none) ∧
        countAttempts tr = n + 1 ∧ countSleeps tr = n) ∧
    (∀ (conn : Nat → Except PyErr Unit) (i fuel : Nat) (e : PyErr),
      conn i = .error e → isCaughtNetErr e = false →
      wait_for_internet conn i (fuel + 1) = some ([pbAttempt], some e)) := by
  refine ⟨rfl, ?_, ?_⟩
  · intro conn n hfail hok
    exact wfi_retry_aux conn n 0 (by simpa using hfail) (by simpa using hok)
  · intro conn i fuel e he hnc
    rw [wait_for_internet, he]
    simp [hnc]

/-- C8 witness: both hypothesized parts at concrete inputs — the
timeout-timeout-success sequence and an uncaught `OSError`. -/
theorem C8_witness :
    (∃ tr, wait_for_internet c8conn 0 3 = some (tr, none) ∧
      countAttempts tr = 3 ∧ countSleeps tr = 2) ∧
    wait_for_internet c8bad 0 1 = some ([pbAttempt], some (.other "OSError")) := by
  constructor
  · exact C8_prober.2.1 c8conn 2
      (fun j hj => ⟨.socketTimeout, by simp [c8conn, hj], rfl⟩) rfl
  · exact C8_prober.2.2 c8bad 0 0 (.other "OSError") rfl rfl

/-- C1 (amended): in the supervisor loop, a run of the stream that ends
without raising is followed by a fresh connectivity probe and then the
next run; a `KeyboardInterrupt` raised out of the run closes the listener
and exits with status 0; any other exception raised out of the run is not
caught — the process terminates abnormally without probing or
reconnecting. -/
theorem C1_supervisor :
    (∀ (runs : Nat → RunOutcome) (i fuel : Nat), runs i = .returns →
      supervise runs i (fuel + 1) =
        (.runStream :: .probe :: (supervise runs (i + 1) fuel).1,
         (supervise runs (i + 1) fuel).2)) ∧
    (∀ (runs : Nat → RunOutcome) (i fuel : Nat), runs i = .keyboardInterrupt →
      supervise runs i (fuel + 1) = ([.runStream, .closeListener], .exited 0)) ∧
    (∀ (runs : Nat → RunOutcome) (i fuel : Nat) (e : PyErr), runs i = .raises e →
      supervise runs i (fuel + 1) = ([.runStream], .crashed e)) := by
  refine ⟨?_, ?_, ?_⟩
  · intro runs i fuel h
    rw [supervise, h]
  · intro runs i fuel h
    rw [supervise, h]
  · intro runs i fuel e h
    rw [supervise, h]

/-- C1 counterexample: a transport exception raised out of the first
`run_forever` call crashes the process — no connectivity probe occurs and
the exit is neither a clean shutdown nor a reconnect. -/
theorem C1_counterexample :
    (supervise c1crashRuns 0 5).2 =
      .crashed (.other "requests.exceptions.ConnectionError") ∧
    MainEv.probe ∉ (supervise c1crashRuns 0 5).1 ∧
    (supervise c1crashRuns 0 5).2 ≠ .exited 0 := by
  refine ⟨rfl, ?_, by decide⟩
  have h : (supervise c1crashRuns 0 5).1 = [.runStream] := rfl
  rw [h]
  simp

/-- C1 witness: the three supervisor behaviors at concrete run
sequences. -/
theorem C1_witness :
    supervise (fun _ => RunOutcome.returns) 0 1 =
      ([.runStream, .probe], .running) ∧
    supervise (fun _ => RunOutcome.keyboardInterrupt) 0 3 =
      ([.runStream, .closeListener], .exited 0) ∧
    supervise (fun _ => RunOutcome.raises (.other "boom")) 0 3 =
      ([.runStream], .crashed (.other "boom")) :=
  ⟨(C1_supervisor.1 (fun _ => RunOutcome.returns) 0 0 rfl).trans rfl,
   C1_supervisor.2.1 (fun _ => RunOutcome.keyboardInterrupt) 0 2 rfl,
   C1_supervisor.2.2 (fun _ => RunOutcome.raises (.other "boom")) 0 2
     (.other "boom") rfl⟩

/-- C10: `check_if_dismissed` yields a truthy result exactly when the
`dismissed` key is present with a truthy value; consequently a candidate
with non-empty title and body whose final payload has no `dismissed` key
is forwarded to the sink. -/
theorem C10_dismissed_default :
    (∀ d : List (String × JVal),
      (check_if_dismissed (.vObj d)).map JVal.truthy = .ok true ↔
      ∃ w, d.lookup "dismissed" = some w ∧ w.truthy = true) ∧
    (∀ (tr : List Eff) (d : List (String × JVal)) (t b : String),
      d.lookup "dismissed" = none → t ≠ "" → b ≠ "" →
      gate ⟨tr, .vObj d, some (.vStr t), some (.vStr b), none⟩ =
        ⟨tr ++ [.dbusNotify "Pushbullet" 0 ICON (pyStrip t) (pyStrip b) "" "" 5000],
         none⟩) := by
  constructor
  · intro d
    cases hd : d.lookup "dismissed" with
    | none => simp [check_if_dismissed, keysContains, hd, JVal.truthy, Except.map]
    | some w => simp [check_if_dismissed, keysContains, JVal.getItem, hd, Except.map]
  · intro tr d t b hd hnt hnb
    rw [gate]
    simp [JVal.truthy, check_if_dismissed, keysContains, hd, notify, hnt, hnb]

/-- C10 witness: a payload without a `dismissed` key and with non-empty
title and body triggers the D-Bus call. -/
theorem C10_witness :
    gate ⟨[], .vObj [("title", .vStr "T")], some (.vStr "T"), some (.vStr "B"), none⟩ =
      ⟨[] ++ [.dbusNotify "Pushbullet" 0 ICON (pyStrip "T") (pyStrip "B") "" "" 5000],
       none⟩ :=
  C10_dismissed_default.2 [] [("title", .vStr "T")] "T" "B" rfl
    (by decide) (by decide)

/-- C6: for a tickle event the classifier calls `get_pushes` exactly
once, derives its candidate from the first (most recent) returned item,
and discards the tickle event's own payload (the outcome depends only on
the head of the history list, not on the event, the parser, or the rest
of the account). -/
theorem C6_tickle_once (loads : String → Except PyErr JVal) (a : Account)
    (ev : JVal) (h : ev.getItem "type" = .ok (.vStr "tickle")) :
    countGetPushes (on_push loads a ev).trace = 1 ∧
    (∀ p rest, a.pushes = p :: rest →
      classify loads a ev =
        match handle_push p with
        | .error e => ⟨[.getPushes], p, none, none, some e⟩
        | .ok tb => ⟨[.getPushes], p, some tb.1, some tb.2, none⟩) ∧
    (∀ (loads2 : String → Except PyErr JVal) (a2 : Account) (ev2 : JVal),
      ev2.getItem "type" = .ok (.vStr "tickle") →
      a2.pushes.head? = a.pushes.head? →
      on_push loads2 a2 ev2 = on_push loads a ev) := by
  have hc := classify_tickle loads a ev h
  have htr : (classify loads a ev).trace = [.getPushes] := by
    rw [hc]
    cases hp : a.pushes with
    | nil => rfl
    | cons p rest =>
      cases hh : handle_push p with
      | error e => simp [hh]
      | ok tb => simp [hh]
  refine ⟨?_, ?_, ?_⟩
  · rcases gate_cases (classify loads a ev) with hg | ⟨t0, b0, dv, _, _, _, _, _, _, _, hg⟩
    · rw [on_push, hg]
      simp only [htr]
      rfl
    · rw [on_push, hg, htr, countGetPushes_append_notify]
      rfl
  · intro p rest hp
    rw [hc, hp]
  · intro loads2 a2 ev2 h2 hhead
    have hc2 := classify_tickle loads2 a2 ev2 h2
    cases hp : a.pushes with
    | nil =>
      cases hp2 : a2.pushes with
      | nil =>
        rw [on_push, on_push, hc, hc2, hp, hp2]
        rfl
      | cons q qs =>
        rw [hp, hp2] at hhead
        simp at hhead
    | cons p rest =>
      cases hp2 : a2.pushes with
      | nil =>
        rw [hp, hp2] at hhead
        simp at hhead
      | cons q qs =>
        rw [hp, hp2] at hhead
        simp only [List.head?_cons, Option.some.injEq] at hhead
        subst hhead
        rw [on_push, on_push, hc, hc2, hp, hp2]

/-- C6 witness: one history fetch on a concrete tickle event. -/
theorem C6_witness : countGetPushes (on_push c6loads c6acct c6ev).trace = 1 :=
  (C6_tickle_once c6loads c6acct c6ev rfl).1

/-- C4: for an encrypted push payload the classifier calls the decryption
collaborator with exactly the payload's `ciphertext` field, parses the
decrypted text, and classifies the decrypted structure exactly as a
plaintext inner payload is classified — so a decrypted mirror payload
yields the same candidate as the same payload arriving unencrypted. -/
theorem C4_encrypted_equiv (loads : String → Except PyErr JVal) (a : Account)
    (ev inner enc ct : JVal) (s : String) (dec : JVal)
    (h1 : ev.getItem "type" = .ok (.vStr "push"))
    (h2 : ev.getItem "push" = .ok inner)
    (h3 : inner.getItem "encrypted" = .ok enc)
    (h4 : enc.truthy = true)
    (h5 : inner.getItem "ciphertext" = .ok ct)
    (h6 : a.decrypt_data ct = .ok s)
    (h7 : loads s = .ok dec) :
    classify loads a ev = withTrace [.decryptData ct] (classifyInner dec) ∧
    Eff.decryptData ct ∈ (classify loads a ev).trace ∧
    (classify loads a ev).title = (classifyInner dec).title ∧
    (classify loads a ev).body = (classifyInner dec).body ∧
    (classify loads a ev).final = (classifyInner dec).final ∧
    (classify loads a ev).err = (classifyInner dec).err ∧
    (∀ (loads2 : String → Except PyErr JVal) (a2 : Account)
       (ev2 inner2 enc2 : JVal),
      ev2.getItem "type" = .ok (.vStr "push") →
      ev2.getItem "push" = .ok inner2 →
      inner2.getItem "encrypted" = .ok enc2 →
      enc2.truthy = false →
      inner2 = dec →
      ((classify loads2 a2 ev2).title = (classify loads a ev).title ∧
       (classify loads2 a2 ev2).body = (classify loads a ev).body ∧
       (classify loads2 a2 ev2).final = (classify loads a ev).final ∧
       (classify loads2 a2 ev2).err = (classify loads a ev).err ∧
       (classify loads a ev).trace =
         .decryptData ct :: (classify loads2 a2 ev2).trace)) := by
  have hc := classify_push_enc loads a ev inner enc ct s dec h1 h2 h3 h4 h5 h6 h7
  refine ⟨hc, ?_, ?_, ?_, ?_, ?_, ?_⟩
  · rw [hc]
    simp [withTrace]
  · rw [hc]; rfl
  · rw [hc]; rfl
  · rw [hc]; rfl
  · rw [hc]; rfl
  · intro loads2 a2 ev2 inner2 enc2 g1 g2 g3 g4 g5
    have hc2 := classify_push_plain loads2 a2 ev2 inner2 enc2 g1 g2 g3 g4
    rw [g5] at hc2
    rw [hc, hc2]
    exact ⟨rfl, rfl, rfl, rfl, rfl⟩

/-- C4 witness: a concrete encrypted mirror event decrypts via ciphertext
`"CT"` and classifies identically to its plaintext twin. -/
theorem C4_witness :
    Eff.decryptData (.vStr "CT") ∈ (classify c4loads c4acct c4ev).trace ∧
    (classify c4loads c4acct c4ev2).title = (classify c4loads c4acct c4ev).title := by
  have h := C4_encrypted_equiv c4loads c4acct c4ev c4inner (.vBool true)
    (.vStr "CT") "PLAIN" c4dec rfl rfl rfl rfl rfl rfl rfl
  have h2 := h.2.2.2.2.2.2 c4loads c4acct c4ev2 c4dec (.vBool false) rfl rfl rfl rfl rfl
  exact ⟨h.2.1, h2.1⟩

/-- C3: whenever a D-Bus notification call appears in the trace of a run,
the classifier had produced a candidate whose title and body are
non-empty strings, the call carries exactly their stripped forms, and the
final payload used was not dismissed. -/
theorem C3_notify_gate (loads : String → Except PyErr JVal) (a : Account)
    (ev : JVal) (app : String) (rid : Nat) (icon t b acts hints : String)
    (exp : Nat)
    (h : Eff.dbusNotify app rid icon t b acts hints exp ∈ (on_push loads a ev).trace) :
    ∃ t0 b0 dv,
      (classify loads a ev).title = some (.vStr t0) ∧
      (classify loads a ev).body = some (.vStr b0) ∧
      t0 ≠ "" ∧ b0 ≠ "" ∧ t = pyStrip t0 ∧ b = pyStrip b0 ∧
      check_if_dismissed (classify loads a ev).final = .ok dv ∧
      dv.truthy = false := by
  have hnn : Eff.dbusNotify app rid icon t b acts hints exp ∉
      (classify loads a ev).trace := by
    rcases classify_trace_shape loads a ev with hs | hs | ⟨ct, hs⟩ <;>
      rw [hs] <;> simp
  rcases gate_cases (classify loads a ev) with hg |
    ⟨t0, b0, dv, herr, hti, hbo, hnt, hnb, hcd, hdv, hg⟩
  · rw [on_push, hg] at h
    exact absurd h hnn
  · rw [on_push, hg] at h
    simp only [List.mem_append, List.mem_singleton] at h
    rcases h with h | h
    · exact absurd h hnn
    · obtain ⟨happ, hrid, hicon, ht, hb, hacts, hhints, hexp⟩ := Eff.dbusNotify.inj h
      exact ⟨t0, b0, dv, hti, hbo, hnt, hnb, ht, hb, hcd, hdv⟩

/-- C3 witness: a concrete run whose trace contains a D-Bus call. -/
theorem C3_witness :
    ∃ t0 b0 dv,
      (classify c3loads c3acct c3ev).title = some (.vStr t0) ∧
      (classify c3loads c3acct c3ev).body = some (.vStr b0) ∧
      t0 ≠ "" ∧ b0 ≠ "" ∧ "T" = pyStrip t0 ∧ "B" = pyStrip b0 ∧
      check_if_dismissed (classify c3loads c3acct c3ev).final = .ok dv ∧
      dv.truthy = false :=
  C3_notify_gate c3loads c3acct c3ev "Pushbullet" 0 ICON "T" "B" "" "" 5000
    (by
      have h : (on_push c3loads c3acct c3ev).trace =
          [.getPushes, .dbusNotify "Pushbullet" 0 ICON "T" "B" "" "" 5000] := rfl
      rw [h]
      simp)
